import Mathlib

/-!
Shallow embedding of `src/type-check.ts` (the static type checker of the
chocopy-wasm-compiler repository) and proofs about it.

Modelling conventions, fixed throughout this file:

* Source locations (`loc` fields, and the `loc` argument of every thrown
  exception) are omitted: no checking decision ever reads them.

* The type constants `NUM`, `BOOL`, `NONE` and the constructor `CLASS` are
  imported by the source from a `utils` module. Modelled from the spec:
  the spec's §3 type model is the tagged variant Num / Bool / None /
  Class(name). The three primitive constants are module-level singleton
  objects, so JavaScript reference equality (`===`) on primitive type
  values coincides with tag equality. `CLASS(name)` builds a fresh object
  per call (the checker's own `equalType` helper compares class types by
  name precisely because plain `===` on them is object identity, not name
  equality), so two class-type values with the same name need not be
  `===`-equal. The `ref` field of `Ty.cls` records this object identity:
  two class-type values are the same JavaScript object exactly when both
  their `name` and `ref` agree. The checker allocates class-type objects
  only in the `construct` case (`CLASS(expr.name)`); a counter `k` of the
  next fresh `ref` is threaded through the checking functions to model
  those allocations.

* JavaScript `Map` objects are modelled as association lists (`SMap`)
  with `Map.get`/`Map.has`/`Map.set` semantics (`set` updates an existing
  key in place, otherwise appends). For the frame property about the
  caller's environment (`tc` never mutates its argument), the `Map`
  objects' identities are modelled explicitly by a `Store` holding the
  contents of every allocated map, with environments passed as references
  (`EnvRef`) into the store; `augmentTEnvS`/`tcS` mirror which map object
  each `new Map(...)` copy and each `.set` call targets.

* Exceptions are modelled as `Except Err`. A JavaScript *crash* that is
  not one of the checker's own thrown diagnostics — reading a property of
  `undefined`, e.g. `tThn[tThn.length - 1].a` on an empty branch list —
  is modelled as the distinguished error `Err.runtimeError`.

* `tcStmt`/`tcBlock` receive `locals` by value: no statement case ever
  writes to `locals.vars` (the `assign` case throws `NameError` for a
  name bound in neither scope instead of inserting it), so the mutable
  `LocalTypeEnv` of the source never changes after `tcDef` builds it.
-/

/-- The static type model (`Type` in `ast.ts`): Num, Bool, None, Class(name).
`ref` on `cls` models JavaScript object identity of class-type values, see
the header comment. -/
inductive Ty where
  | num : Ty
  | bool : Ty
  | none : Ty
  | cls (name : String) (ref : Nat) : Ty
deriving Repr, DecidableEq

/-- The `tag` string of a type value (`"number"`, `"bool"`, `"none"`, `"class"`). -/
def Ty.tagStr : Ty → String
  | .num => "number"
  | .bool => "bool"
  | .none => "none"
  | .cls _ _ => "class"

/-- The description used in several diagnostics:
`t.tag === "class" ? t.name : t.tag`. -/
def Ty.desc : Ty → String
  | .cls n _ => n
  | t => t.tagStr

/-- JavaScript `===` on two type values: primitive type values are the
module-level singletons, class-type values compare by object identity. -/
def tyEqJs : Ty → Ty → Bool
  | .num, .num => true
  | .bool, .bool => true
  | .none, .none => true
  | .cls n1 r1, .cls n2 r2 => n1 == n2 && r1 == r2
  | _, _ => false

/-- Embeds `equalType` from src/type-check.ts:46:
`t1 === t2 || (t1.tag === "class" && t2.tag === "class" && t1.name === t2.name)`. -/
def equalType (t1 t2 : Ty) : Bool :=
  tyEqJs t1 t2 ||
    (match t1, t2 with
     | .cls n1 _, .cls n2 _ => n1 == n2
     | _, _ => false)

/-- Embeds `isNoneOrClass` from src/type-check.ts:50. -/
def isNoneOrClass (t : Ty) : Bool :=
  match t with
  | .none => true
  | .cls _ _ => true
  | _ => false

/-- Maps from string keys, modelling JavaScript `Map` contents. -/
abbrev SMap (α : Type) := List (String × α)

/-- Models `Map.get`. -/
def SMap.get? {α : Type} (m : SMap α) (k : String) : Option α :=
  (m.find? (fun p => p.1 == k)).map (fun p => p.2)

/-- Models `Map.has`. -/
def SMap.has {α : Type} (m : SMap α) (k : String) : Bool :=
  (m.find? (fun p => p.1 == k)).isSome

/-- Models `Map.set`: update an existing key in place, otherwise append. -/
def SMap.set {α : Type} (m : SMap α) (k : String) (v : α) : SMap α :=
  if SMap.has m k then m.map (fun p => if p.1 == k then (k, v) else p)
  else m ++ [(k, v)]

/-- Embeds `GlobalTypeEnv` from src/type-check.ts:5. A function signature is
`(parameter types, return type)`; a class entry is `(fields, methods)`. -/
structure GlobalTypeEnv where
  globals : SMap Ty
  functions : SMap (List Ty × Ty)
  classes : SMap (SMap Ty × SMap (List Ty × Ty))
deriving Repr

/-- Embeds `LocalTypeEnv` from src/type-check.ts:11. -/
structure LocalTypeEnv where
  vars : SMap Ty
  expectedRet : Ty
  topLevel : Bool
deriving Repr

/-- Embeds `isSubtype` from src/type-check.ts:54. -/
def isSubtype (_env : GlobalTypeEnv) (t1 t2 : Ty) : Bool :=
  equalType t1 t2 ||
    (match t1, t2 with
     | .none, .cls _ _ => true
     | _, _ => false)

/-- Embeds `isAssignable` from src/type-check.ts:58. -/
def isAssignable (env : GlobalTypeEnv) (t1 t2 : Ty) : Bool :=
  isSubtype env t1 t2

/-- Embeds `join` from src/type-check.ts:62: it returns `NONE` unconditionally. -/
def join (_env : GlobalTypeEnv) (_t1 _t2 : Ty) : Ty :=
  Ty.none

/-- Embeds `defaultTypeEnv` from src/type-check.ts:24, holding the built-in
function table. `CLASS("object")` for `print`'s parameter is the one
class-type object allocated at module initialisation; it gets `ref` 0. -/
def defaultTypeEnv : GlobalTypeEnv :=
  { globals := [],
    functions :=
      [("abs", ([Ty.num], Ty.num)),
       ("max", ([Ty.num, Ty.num], Ty.num)),
       ("min", ([Ty.num, Ty.num], Ty.num)),
       ("pow", ([Ty.num, Ty.num], Ty.num)),
       ("print", ([Ty.cls "object" 0], Ty.num))],
    classes := [] }

/-- Embeds `emptyGlobalTypeEnv` from src/type-check.ts:30. -/
def emptyGlobalTypeEnv : GlobalTypeEnv :=
  { globals := [], functions := [], classes := [] }

/-- Embeds `emptyLocalTypeEnv` from src/type-check.ts:38. -/
def emptyLocalTypeEnv : LocalTypeEnv :=
  { vars := [], expectedRet := Ty.none, topLevel := true }

/-- Literals (`Literal` in `ast.ts`), restricted to the three tags
`tcLiteral` handles. -/
inductive Lit where
  | bool (b : Bool) : Lit
  | num (n : Int) : Lit
  | none : Lit
deriving Repr, DecidableEq

/-- The `BinOp` enum, with the source's member names. -/
inductive BinOp where
  | Plus | Minus | Mul | IDiv | Mod
  | Eq | Neq | Lte | Gte | Lt | Gt
  | And | Or | Is
deriving Repr, DecidableEq

/-- Models `BinOp[op]`: the enum member's name as a string. -/
def BinOp.str : BinOp → String
  | .Plus => "Plus" | .Minus => "Minus" | .Mul => "Mul" | .IDiv => "IDiv"
  | .Mod => "Mod" | .Eq => "Eq" | .Neq => "Neq" | .Lte => "Lte"
  | .Gte => "Gte" | .Lt => "Lt" | .Gt => "Gt" | .And => "And"
  | .Or => "Or" | .Is => "Is"

/-- The `UniOp` enum. -/
inductive UniOp where
  | Neg | Not
deriving Repr, DecidableEq

/-- Models `UniOp[op]`. -/
def UniOp.str : UniOp → String
  | .Neg => "Neg"
  | .Not => "Not"

/-- Expressions (`Expr<A>` in `ast.ts`): `a` is the annotation (`Unit`
before checking, `Ty` after). `construct` is the node the checker rewrites
class-name calls into; it carries no argument list. -/
inductive Expr (α : Type) where
  | literal (a : α) (value : Lit) : Expr α
  | binop (a : α) (op : BinOp) (left : Expr α) (right : Expr α) : Expr α
  | uniop (a : α) (op : UniOp) (expr : Expr α) : Expr α
  | id (a : α) (name : String) : Expr α
  | builtin1 (a : α) (name : String) (arg : Expr α) : Expr α
  | builtin2 (a : α) (name : String) (left : Expr α) (right : Expr α) : Expr α
  | call (a : α) (name : String) (arguments : List (Expr α)) : Expr α
  | construct (a : α) (name : String) : Expr α
  | lookup (a : α) (obj : Expr α) (field : String) : Expr α
  | methodCall (a : α) (obj : Expr α) (method : String) (arguments : List (Expr α)) : Expr α
deriving Repr

/-- The annotation `e.a`. -/
def Expr.annot {α : Type} : Expr α → α
  | .literal a _ => a
  | .binop a _ _ _ => a
  | .uniop a _ _ => a
  | .id a _ => a
  | .builtin1 a _ _ => a
  | .builtin2 a _ _ _ => a
  | .call a _ _ => a
  | .construct a _ => a
  | .lookup a _ _ => a
  | .methodCall a _ _ _ => a

/-- The node's `tag` string (used — by a slip in the source, in place of
the argument type's tag — in the builtin1 mismatch diagnostic). -/
def Expr.tagStr {α : Type} : Expr α → String
  | .literal _ _ => "literal"
  | .binop _ _ _ _ => "binop"
  | .uniop _ _ _ => "uniop"
  | .id _ _ => "id"
  | .builtin1 _ _ _ => "builtin1"
  | .builtin2 _ _ _ _ => "builtin2"
  | .call _ _ _ => "call"
  | .construct _ _ => "construct"
  | .lookup _ _ _ => "lookup"
  | .methodCall _ _ _ _ => "method-call"

/-- Statements (`Stmt<A>` in `ast.ts`), the forms `tcStmt` handles.
`assignment` is the destructured form (always rejected). -/
inductive Stmt (α : Type) where
  | assignment (a : α) : Stmt α
  | assign (a : α) (name : String) (value : Expr α) : Stmt α
  | expr (a : α) (e : Expr α) : Stmt α
  | ifStmt (a : α) (cond : Expr α) (thn : List (Stmt α)) (els : List (Stmt α)) : Stmt α
  | ret (a : α) (value : Expr α) : Stmt α
  | whileStmt (a : α) (cond : Expr α) (body : List (Stmt α)) : Stmt α
  | pass (a : α) : Stmt α
  | fieldAssign (a : α) (obj : Expr α) (field : String) (value : Expr α) : Stmt α
deriving Repr

/-- The annotation `s.a`. -/
def Stmt.annot {α : Type} : Stmt α → α
  | .assignment a => a
  | .assign a _ _ => a
  | .expr a _ => a
  | .ifStmt a _ _ _ => a
  | .ret a _ => a
  | .whileStmt a _ _ => a
  | .pass a => a
  | .fieldAssign a _ _ _ => a

/-- Embeds `VarInit<A>` from `ast.ts`. -/
structure VarInit (α : Type) where
  a : α
  name : String
  type : Ty
  value : Lit
deriving Repr

/-- A function parameter (`Parameter` in `ast.ts`). -/
structure Param where
  name : String
  type : Ty
deriving Repr, DecidableEq

/-- Embeds `FunDef<A>` from `ast.ts`. -/
structure FunDef (α : Type) where
  a : α
  name : String
  parameters : List Param
  ret : Ty
  inits : List (VarInit α)
  body : List (Stmt α)
deriving Repr

/-- Embeds `Class<A>` from `ast.ts`. -/
structure ClassDef (α : Type) where
  a : α
  name : String
  fields : List (VarInit α)
  methods : List (FunDef α)
deriving Repr

/-- Embeds `Program<A>` from `ast.ts`. On the unchecked program `a` is `Unit`;
the checker's result program carries the last top-level statement's type. -/
structure Program (α : Type) where
  a : α
  inits : List (VarInit α)
  funs : List (FunDef α)
  classes : List (ClassDef α)
  stmts : List (Stmt α)
deriving Repr

/-- The diagnostics of `error.ts` that src/type-check.ts throws, plus
`runtimeError` for a JavaScript crash (a property read on `undefined`)
that is not one of the checker's own diagnostics. `synError` is the
source's `SyntaxError`. -/
inductive Err where
  | typeMismatchError (expected : String) (actual : String) : Err
  | nameError (name : String) : Err
  | conditionTypeError (tag : String) : Err
  | synError (msg : String) : Err
  | typeError (msg : String) : Err
  | unsupportedOprandTypeError (op : String) (tags : List String) : Err
  | attributeError (owner : String) (attr : String) : Err
  | exception (msg : String) : Err
  | runtimeError : Err
deriving Repr, DecidableEq

/-- Whether an error is one of the checker's own thrown diagnostics.
`runtimeError` — an engine-level crash — is not. -/
def Err.isDefinedDiagnostic : Err → Bool
  | .runtimeError => false
  | _ => true

/-- Embeds `toObject` from src/type-check.ts:507. -/
def toObject (types : List Ty) : String :=
  "[" ++ String.intercalate "," (types.map Ty.desc) ++ "]"

/-- Embeds `augmentTEnv` from src/type-check.ts:66: copies of the three maps,
extended with the program's own declarations. -/
def augmentTEnv (env : GlobalTypeEnv) (program : Program Unit) : GlobalTypeEnv :=
  let newGlobs := program.inits.foldl (fun m init => SMap.set m init.name init.type) env.globals
  let newFuns := program.funs.foldl
    (fun m f => SMap.set m f.name (f.parameters.map (fun p => p.type), f.ret)) env.functions
  let newClasses := program.classes.foldl
    (fun m cls =>
      let fields := cls.fields.foldl (fun fm field => SMap.set fm field.name field.type) []
      let methods := cls.methods.foldl
        (fun mm mth => SMap.set mm mth.name (mth.parameters.map (fun p => p.type), mth.ret)) []
      SMap.set m cls.name (fields, methods))
    env.classes
  { globals := newGlobs, functions := newFuns, classes := newClasses }

/-- Embeds `tcLiteral` from src/type-check.ts:494. -/
def tcLiteral : Lit → Ty
  | .bool _ => Ty.bool
  | .num _ => Ty.num
  | .none => Ty.none

mutual

/-- Embeds `tcExpr` from src/type-check.ts:233. `k` is the next fresh object
identity for `CLASS(...)` allocations (used only by the construct case).
Differences forced by the typed representation, both without observable
effect on any claim: the success result of the ordinary-call case carries
the checked arguments where the source spreads the original unchecked
argument nodes back in, and likewise for `builtin2`/`methodCall`. -/
def tcExpr (env : GlobalTypeEnv) (locals : LocalTypeEnv) (expr : Expr Unit) (k : Nat) :
    Except Err (Expr Ty × Nat) :=
  match expr with
  | .literal _ v => .ok (.literal (tcLiteral v) v, k)
  | .binop _ op left right => do
      let (tLeft, k1) ← tcExpr env locals left k
      let (tRight, k2) ← tcExpr env locals right k1
      match op with
      | .Plus | .Minus | .Mul | .IDiv | .Mod =>
        if equalType tLeft.annot Ty.num && equalType tRight.annot Ty.num then
          .ok (.binop Ty.num op tLeft tRight, k2)
        else
          .error (.unsupportedOprandTypeError op.str [tLeft.annot.tagStr, tRight.annot.tagStr])
      | .Eq | .Neq =>
        if equalType tLeft.annot tRight.annot then
          .ok (.binop Ty.bool op tLeft tRight, k2)
        else
          .error (.unsupportedOprandTypeError op.str [tLeft.annot.tagStr, tRight.annot.tagStr])
      | .Lte | .Gte | .Lt | .Gt =>
        if equalType tLeft.annot Ty.num && equalType tRight.annot Ty.num then
          .ok (.binop Ty.bool op tLeft tRight, k2)
        else
          .error (.unsupportedOprandTypeError op.str [tLeft.annot.tagStr, tRight.annot.tagStr])
      | .And | .Or =>
        if equalType tLeft.annot Ty.bool && equalType tRight.annot Ty.bool then
          .ok (.binop Ty.bool op tLeft tRight, k2)
        else
          .error (.unsupportedOprandTypeError op.str [tLeft.annot.tagStr, tRight.annot.tagStr])
      | .Is =>
        if !isNoneOrClass tLeft.annot || !isNoneOrClass tRight.annot then
          .error (.unsupportedOprandTypeError op.str [tLeft.annot.tagStr, tRight.annot.tagStr])
        else
          .ok (.binop Ty.bool op tLeft tRight, k2)
  | .uniop _ op e => do
      let (tE, k1) ← tcExpr env locals e k
      match op with
      | .Neg =>
        if equalType tE.annot Ty.num then .ok (.uniop tE.annot op tE, k1)
        else .error (.unsupportedOprandTypeError op.str [tE.annot.tagStr])
      | .Not =>
        if equalType tE.annot Ty.bool then .ok (.uniop tE.annot op tE, k1)
        else .error (.unsupportedOprandTypeError op.str [tE.annot.tagStr])
  | .id _ name =>
      match SMap.get? locals.vars name with
      | some t => .ok (.id t name, k)
      | Option.none =>
        match SMap.get? env.globals name with
        | some t => .ok (.id t name, k)
        | Option.none => .error (.nameError name)
  | .builtin1 _ name arg =>
      if name == "print" then do
        let (tArg, k1) ← tcExpr env locals arg k
        .ok (.builtin1 tArg.annot name tArg, k1)
      else
        match SMap.get? env.functions name with
        | some (argTys, retTyp) => do
          let (tArg, k1) ← tcExpr env locals arg k
          match argTys.head? with
          | some expectedArgTyp =>
            if isAssignable env tArg.annot expectedArgTyp then
              .ok (.builtin1 retTyp name tArg, k1)
            else
              -- the source's actual-type description reads `tArg.tag` — the
              -- expression tag — where `tArg.a.tag` was surely meant
              .error (.typeMismatchError expectedArgTyp.desc
                (match tArg.annot with | .cls n _ => n | _ => tArg.tagStr))
          | Option.none =>
            -- a zero-parameter signature destructures to `undefined` and the
            -- subsequent property reads crash
            .error .runtimeError
        | Option.none => .error (.nameError name)
  | .builtin2 _ name left right =>
      match SMap.get? env.functions name with
      | some (argTys, retTyp) => do
        let (tLeftArg, k1) ← tcExpr env locals left k
        let (tRightArg, k2) ← tcExpr env locals right k1
        match argTys with
        | leftTyp :: rightTyp :: _ =>
          -- note the reversed direction: declared type assignable to actual
          if isAssignable env leftTyp tLeftArg.annot
              && isAssignable env rightTyp tRightArg.annot then
            .ok (.builtin2 retTyp name tLeftArg tRightArg, k2)
          else
            .error (.typeMismatchError (toObject [leftTyp, rightTyp])
              (toObject [tLeftArg.annot, tRightArg.annot]))
        | _ =>
          -- fewer than two declared parameters: `undefined` property reads crash
          .error .runtimeError
      | Option.none => .error (.nameError name)
  | .call _ name args =>
      match SMap.get? env.classes name with
      | some (_fields, methods) =>
        -- the call is a constructor; the arguments are never checked and the
        -- construct node drops them; `CLASS(expr.name)` allocates identity `k`
        match SMap.get? methods "__init__" with
        | some (initArgs, initRet) =>
          if (args.length : Int) ≠ (initArgs.length : Int) - 1 then
            .error (.typeError ("__init__() takes " ++ toString initArgs.length
              ++ " positional arguments but " ++ toString (args.length + 1)
              ++ " were given"))
          else if !tyEqJs initRet Ty.none then
            .error (.typeError ("__init__() should return None, not \x27"
              ++ initRet.desc ++ "\x27"))
          else
            .ok (.construct (Ty.cls name k) name, k + 1)
        | Option.none => .ok (.construct (Ty.cls name k) name, k + 1)
      | Option.none =>
        match SMap.get? env.functions name with
        | some (argTypes, retType) => do
          let (tArgs, k1) ← tcExprList env locals args k
          if argTypes.length == args.length
              && (tArgs.zip argTypes).all (fun p => tyEqJs p.1.annot p.2) then
            .ok (.call retType name tArgs, k1)
          else if argTypes.length != args.length then
            .error (.typeError (name ++ " takes " ++ toString argTypes.length
              ++ " positional arguments but " ++ toString args.length
              ++ " were given"))
          else
            .error (.typeMismatchError (toObject argTypes)
              (toObject (tArgs.map Expr.annot)))
        | Option.none => .error (.nameError name)
  | .construct _ _ =>
      -- no switch case handles a construct node: the default case throws
      .error (.exception "unimplemented type checking for expr")
  | .lookup _ obj field => do
      let (tObj, k1) ← tcExpr env locals obj k
      match tObj.annot with
      | .cls cname _ =>
        match SMap.get? env.classes cname with
        | some (fields, _methods) =>
          match SMap.get? fields field with
          | some ft => .ok (.lookup ft tObj field, k1)
          | Option.none => .error (.attributeError cname field)
        | Option.none => .error (.nameError cname)
      | t => .error (.attributeError t.tagStr field)
  | .methodCall _ obj method args => do
      let (tObj, k1) ← tcExpr env locals obj k
      let (tArgs, k2) ← tcExprList env locals args k1
      match tObj.annot with
      | .cls cname _ =>
        match SMap.get? env.classes cname with
        | some (_fields, methods) =>
          match SMap.get? methods method with
          | some (methodArgs, methodRet) =>
            let realArgs := tObj :: tArgs
            if methodArgs.length == realArgs.length
                && (realArgs.zip methodArgs).all
                  (fun p => isAssignable env p.1.annot p.2) then
              .ok (.methodCall methodRet tObj method tArgs, k2)
            else if methodArgs.length != realArgs.length then
              .error (.typeError (method ++ " takes " ++ toString methodArgs.length
                ++ " positional arguments but " ++ toString realArgs.length
                ++ " were given"))
            else
              .error (.typeMismatchError (toObject methodArgs)
                (toObject (realArgs.map Expr.annot)))
          | Option.none => .error (.attributeError cname method)
        | Option.none => .error (.nameError cname)
      | t => .error (.attributeError t.tagStr method)

/-- Models `expr.arguments.map((arg) => tcExpr(env, locals, arg))`: left-to-right,
first thrown diagnostic wins, allocation counter threaded through. -/
def tcExprList (env : GlobalTypeEnv) (locals : LocalTypeEnv) (es : List (Expr Unit)) (k : Nat) :
    Except Err (List (Expr Ty) × Nat) :=
  match es with
  | [] => .ok ([], k)
  | e :: rest => do
      let (tE, k1) ← tcExpr env locals e k
      let (tRest, k2) ← tcExprList env locals rest k1
      .ok (tE :: tRest, k2)

end

mutual

/-- Embeds `tcStmt` from src/type-check.ts:154. -/
def tcStmt (env : GlobalTypeEnv) (locals : LocalTypeEnv) (stmt : Stmt Unit) (k : Nat) :
    Except Err (Stmt Ty × Nat) :=
  match stmt with
  | .assignment _ => .error (.exception "Destructured assignment not implemented")
  | .assign _ name value => do
      let (tValExpr, k1) ← tcExpr env locals value k
      let nameTyp ←
        (if SMap.has locals.vars name then
          match SMap.get? locals.vars name with
          | some t => Except.ok t
          | Option.none => Except.error Err.runtimeError
        else if SMap.has env.globals name then
          match SMap.get? env.globals name with
          | some t => Except.ok t
          | Option.none => Except.error Err.runtimeError
        else
          -- no branch inserts the name: an assignment to an undeclared
          -- name is a NameError, it never declares anything
          Except.error (Err.nameError name))
      if !isAssignable env tValExpr.annot nameTyp then
        .error (.typeMismatchError nameTyp.tagStr tValExpr.annot.tagStr)
      else
        .ok (.assign Ty.none name tValExpr, k1)
  | .expr _ e => do
      let (tExpr, k1) ← tcExpr env locals e k
      .ok (.expr tExpr.annot tExpr, k1)
  | .ifStmt _ cond thn els => do
      let (tCond, k1) ← tcExpr env locals cond k
      let (tThn, k2) ← tcBlock env locals thn k1
      -- `tThn[tThn.length - 1].a`: crashes on an empty branch list
      let thnTyp ← (match tThn.getLast? with
        | some s => Except.ok s.annot
        | Option.none => Except.error Err.runtimeError)
      let (tEls, k3) ← tcBlock env locals els k2
      let elsTyp ← (match tEls.getLast? with
        | some s => Except.ok s.annot
        | Option.none => Except.error Err.runtimeError)
      -- the condition's type is tested only after both branches are checked,
      -- and with `!==` (object identity), not `equalType`
      if !tyEqJs tCond.annot Ty.bool then
        .error (.conditionTypeError tCond.annot.tagStr)
      else if !tyEqJs thnTyp elsTyp then
        .error (.synError "Types of then and else branches must match")
      else
        .ok (.ifStmt thnTyp tCond tThn tEls, k3)
  | .ret _ value =>
      if locals.topLevel then
        .error (.synError "‘return’ outside of functions")
      else do
        let (tRet, k1) ← tcExpr env locals value k
        if !isAssignable env tRet.annot locals.expectedRet then
          .error (.typeMismatchError locals.expectedRet.desc tRet.annot.desc)
        else
          .ok (.ret tRet.annot tRet, k1)
  | .whileStmt _ cond body => do
      let (tCond, k1) ← tcExpr env locals cond k
      let (tBody, k2) ← tcBlock env locals body k1
      if !equalType tCond.annot Ty.bool then
        .error (.conditionTypeError tCond.annot.tagStr)
      else
        .ok (.whileStmt Ty.none tCond tBody, k2)
  | .pass _ => .ok (.pass Ty.none, k)
  | .fieldAssign _ obj field value => do
      let (tObj, k1) ← tcExpr env locals obj k
      let (tVal, k2) ← tcExpr env locals value k1
      match tObj.annot with
      | .cls cname _ =>
        match SMap.get? env.classes cname with
        | some (fields, _methods) =>
          match SMap.get? fields field with
          | some ft =>
            if !isAssignable env tVal.annot ft then
              .error (.typeMismatchError ft.tagStr tVal.annot.tagStr)
            else
              .ok (.fieldAssign Ty.none tObj field tVal, k2)
          | Option.none => .error (.attributeError cname field)
        | Option.none => .error (.nameError cname)
      | t => .error (.attributeError t.tagStr field)

/-- Embeds `tcBlock` from src/type-check.ts:146: `stmts.map(tcStmt ...)`. -/
def tcBlock (env : GlobalTypeEnv) (locals : LocalTypeEnv) (stmts : List (Stmt Unit)) (k : Nat) :
    Except Err (List (Stmt Ty) × Nat) :=
  match stmts with
  | [] => .ok ([], k)
  | s :: rest => do
      let (tS, k1) ← tcStmt env locals s k
      let (tRest, k2) ← tcBlock env locals rest k1
      .ok (tS :: tRest, k2)

end

/-- Embeds `tcInit` from src/type-check.ts:119. -/
def tcInit (env : GlobalTypeEnv) (init : VarInit Unit) : Except Err (VarInit Ty) :=
  let valTyp := tcLiteral init.value
  if isAssignable env valTyp init.type then
    .ok { a := Ty.none, name := init.name, type := init.type, value := init.value }
  else
    .error (.typeMismatchError init.type.tagStr valTyp.tagStr)

/-- Sequencing with the allocation counter threaded through, modelling
`xs.map(f)` where `f` may throw. -/
def mapMK {α β : Type} (f : α → Nat → Except Err (β × Nat)) :
    List α → Nat → Except Err (List β × Nat)
  | [], k => .ok ([], k)
  | x :: xs, k => do
      let (y, k1) ← f x k
      let (ys, k2) ← mapMK f xs k1
      .ok (y :: ys, k2)

/-- Embeds `tcDef` from src/type-check.ts:129. The local scope holds the
parameters and then, init by init (each init checked by `tcInit`, whose
diagnostics propagate), the init's declared type (`tcInit(...).type`).
The source spreads the original unchecked inits into the result; the
checked inits (identical except for the `NONE` annotation) stand in. -/
def tcDef (env : GlobalTypeEnv) (f : FunDef Unit) (k : Nat) : Except Err (FunDef Ty × Nat) := do
  let tInits ← f.inits.mapM (tcInit env)
  let varsP := f.parameters.foldl (fun m p => SMap.set m p.name p.type) []
  let vars := f.inits.foldl (fun m init => SMap.set m init.name init.type) varsP
  let locals : LocalTypeEnv := { vars := vars, expectedRet := f.ret, topLevel := false }
  let (tBody, k1) ← tcBlock env locals f.body k
  .ok ({ a := Ty.none, name := f.name, parameters := f.parameters, ret := f.ret,
         inits := tInits, body := tBody }, k1)

/-- Embeds `tcClass` from src/type-check.ts:140. -/
def tcClass (env : GlobalTypeEnv) (cls : ClassDef Unit) (k : Nat) :
    Except Err (ClassDef Ty × Nat) := do
  let tFields ← cls.fields.mapM (tcInit env)
  let (tMethods, k1) ← mapMK (tcDef env) cls.methods k
  .ok ({ a := Ty.none, name := cls.name, fields := tFields, methods := tMethods }, k1)

/-- Embeds `tc` from src/type-check.ts:86. The inits are checked against the
*old* environment (line 89), everything else against the augmented one.
The final loop copies every binding of `locals.vars` into the new
environment's globals — but `locals` is `emptyLocalTypeEnv` and no
statement case ever inserts into it (see `tcStmt`), so the loop copies
nothing. -/
def tc (env : GlobalTypeEnv) (program : Program Unit) (k : Nat) :
    Except Err (Program Ty × GlobalTypeEnv × Nat) := do
  let locals := emptyLocalTypeEnv
  let newEnv := augmentTEnv env program
  let tInits ← program.inits.mapM (tcInit env)
  let (tDefs, k1) ← mapMK (tcDef newEnv) program.funs k
  let (tClasses, k2) ← mapMK (tcClass newEnv) program.classes k1
  let (tBody, k3) ← tcBlock newEnv locals program.stmts k2
  let lastTyp : Ty :=
    match tBody.getLast? with
    | some s => s.annot
    | Option.none => Ty.none
  let finalGlobals := locals.vars.foldl (fun g p => SMap.set g p.1 p.2) newEnv.globals
  .ok ({ a := lastTyp, inits := tInits, funs := tDefs, classes := tClasses, stmts := tBody },
       { newEnv with globals := finalGlobals }, k3)

/-- A reference to a `GlobalTypeEnv` whose three `Map` objects live in a
`Store`: the JavaScript object identities of the maps. -/
structure EnvRef where
  globals : Nat
  functions : Nat
  classes : Nat
deriving Repr, DecidableEq

/-- The contents of every allocated environment `Map` object, by identity.
Fresh maps are appended, so an identity is an index. -/
structure Store where
  gmaps : List (SMap Ty)
  fmaps : List (SMap (List Ty × Ty))
  cmaps : List (SMap (SMap Ty × SMap (List Ty × Ty)))
deriving Repr

/-- Dereference an environment. -/
def Store.readEnv (σ : Store) (r : EnvRef) : GlobalTypeEnv :=
  { globals := σ.gmaps.getD r.globals [],
    functions := σ.fmaps.getD r.functions [],
    classes := σ.cmaps.getD r.classes [] }

/-- Store-level `augmentTEnv`: `new Map(env.globals)` etc. allocate three
fresh map objects, initialised to copies of the caller's maps and then
extended with the program's declarations; the caller's maps are only read. -/
def augmentTEnvS (σ : Store) (r : EnvRef) (p : Program Unit) : Store × EnvRef :=
  let newEnv := augmentTEnv (σ.readEnv r) p
  let r1 : EnvRef :=
    { globals := σ.gmaps.length, functions := σ.fmaps.length, classes := σ.cmaps.length }
  ({ gmaps := σ.gmaps ++ [newEnv.globals],
     fmaps := σ.fmaps ++ [newEnv.functions],
     cmaps := σ.cmaps ++ [newEnv.classes] }, r1)

/-- Store-level `tc`: the store effects of a call are exactly the three
fresh maps of `augmentTEnv` and, on success, the final loop's `.set`
calls on the *fresh* globals map (`newEnv.globals.set(...)`). Whatever
the outcome, no `.set` ever targets one of the caller's maps. -/
def tcS (σ : Store) (r : EnvRef) (p : Program Unit) (k : Nat) :
    (Except Err (Program Ty × Nat)) × Store × EnvRef :=
  let (σ1, r1) := augmentTEnvS σ r p
  match tc (σ.readEnv r) p k with
  | .error e => (.error e, σ1, r1)
  | .ok (prog, env2, k1) =>
      (.ok (prog, k1), { σ1 with gmaps := σ1.gmaps.set r1.globals env2.globals }, r1)

/-- Structural type equality in the sense of the spec (§3): by tag for
the primitives, by name for class types — ignoring object identity. -/
def structEq : Ty → Ty → Bool
  | .num, .num => true
  | .bool, .bool => true
  | .none, .none => true
  | .cls n1 _, .cls n2 _ => n1 == n2
  | _, _ => false

/-- Tests whether `t` is the none type. -/
def Ty.isNoneTy : Ty → Bool
  | .none => true
  | _ => false

/-- Tests whether `t` is a class type. -/
def Ty.isClassTy : Ty → Bool
  | .cls _ _ => true
  | _ => false

/-! Helper lemmas shared by several claims. -/

theorem exceptBind_ok {ε α β : Type} (a : α) (f : α → Except ε β) :
    (Except.ok a >>= f) = f a := rfl

theorem exceptBind_err {ε α β : Type} (e : ε) (f : α → Except ε β) :
    ((Except.error e : Except ε α) >>= f) = Except.error e := rfl

theorem listGetD_append_lt {α : Type} (l l' : List α) (i : Nat) (d : α)
    (h : i < l.length) : (l ++ l').getD i d = l.getD i d := by
  induction l generalizing i with
  | nil => exact absurd h (Nat.not_lt_zero i)
  | cons a t ih =>
      cases i with
      | zero => rfl
      | succ j => exact ih j (Nat.lt_of_succ_lt_succ h)

theorem listGetD_set_ne {α : Type} (l : List α) (i j : Nat) (x : α) (d : α)
    (h : i ≠ j) : (l.set j x).getD i d = l.getD i d := by
  induction l generalizing i j with
  | nil => rfl
  | cons a t ih =>
      cases j with
      | zero =>
          cases i with
          | zero => exact absurd rfl h
          | succ i' => rfl
      | succ j' =>
          cases i with
          | zero => rfl
          | succ i' => exact ih i' j' (fun he => h (congrArg Nat.succ he))

/-- Program used by the C1 evaluation: the single top-level statement
`x = 1` with `x` declared nowhere. -/
def progAssignUndeclared : Program Unit :=
  { a := (), inits := [], funs := [], classes := [],
    stmts := [.assign () "x" (.literal () (.num 1))] }

/-- C1: the claim says a top-level plain assignment to a name absent from
both scopes is treated as the first assignment declaring that name, with
the binding folded into the returned globals. The code instead throws
`NameError` in the `assign` case (src/type-check.ts:170) and never inserts
into `locals.vars`, so the copy loop at src/type-check.ts:105-107 — the
mechanism the code's own comments (lines 96-97, 103-104) describe — is
dead. Evaluating the checker on the program `x = 1` against the empty
environment yields `NameError("x")` instead of success. -/
theorem claim_C1_failing_eval :
    tc emptyGlobalTypeEnv progAssignUndeclared 0 = .error (.nameError "x") := by rfl

/-- C6 counterexample: `join` applied to `Num` and `Num` returns `None`,
not `Num`, refuting identity-on-equal-types. -/
theorem claim_C6_counterexample :
    join emptyGlobalTypeEnv Ty.num Ty.num = Ty.none ∧ Ty.none ≠ Ty.num := by
  exact ⟨rfl, by decide⟩

/-- C6 amended: `join` ignores both arguments and returns `None` for every
pair of types (so it returns `T` on `(T, T)` only when `T` is `None`). -/
theorem claim_C6_amended_thm (env : GlobalTypeEnv) (t1 t2 : Ty) :
    join env t1 t2 = Ty.none := rfl

/-- C7: assignability is reflexive, and holds exactly on structurally
equal types (by tag for primitives, by name for classes) plus the single
non-trivial case `None` assignable to any class type; no other pair of
distinct types is assignable. -/
theorem claim_C7_thm (env : GlobalTypeEnv) :
    (∀ t, isAssignable env t t = true) ∧
    (∀ t1 t2, isAssignable env t1 t2 =
      (structEq t1 t2 || (Ty.isNoneTy t1 && Ty.isClassTy t2))) := by
  constructor
  · intro t
    cases t <;> simp [isAssignable, isSubtype, equalType, tyEqJs]
  · intro t1 t2
    have hb : ∀ (a b : Bool), (a && b || a) = a := by decide
    cases t1 <;> cases t2 <;>
      simp [isAssignable, isSubtype, equalType, tyEqJs, structEq,
        Ty.isNoneTy, Ty.isClassTy, hb]

/-- C7 witness: concrete instances of the equivalence. -/
theorem claim_C7_witness :
    isAssignable emptyGlobalTypeEnv Ty.num Ty.num = true ∧
    isAssignable emptyGlobalTypeEnv Ty.none (Ty.cls "C" 3) =
      (structEq Ty.none (Ty.cls "C" 3) || (Ty.isNoneTy Ty.none && Ty.isClassTy (Ty.cls "C" 3))) :=
  ⟨(claim_C7_thm emptyGlobalTypeEnv).1 Ty.num,
   (claim_C7_thm emptyGlobalTypeEnv).2 Ty.none (Ty.cls "C" 3)⟩

/-- C2 counterexample: `abs` is in the built-in table and `abs(True)`'s
argument type-checks (to `Bool`), yet the call is rejected: the code does
check the argument for assignability against the recorded parameter type
(src/type-check.ts:341) and throws `TypeMismatchError` (whose actual-type
description is the expression tag `"literal"`, by the slip at line 346). -/
theorem claim_C2_counterexample :
    SMap.has defaultTypeEnv.functions "abs" = true ∧
    tcExpr defaultTypeEnv emptyLocalTypeEnv (.literal () (.bool true)) 0 =
      .ok (.literal Ty.bool (.bool true), 0) ∧
    tcExpr defaultTypeEnv emptyLocalTypeEnv (.builtin1 () "abs" (.literal () (.bool true))) 0 =
      .error (.typeMismatchError "number" "literal") := by
  exact ⟨rfl, rfl, rfl⟩

/-- C2 amended: for a single-argument builtin call whose callee is not
`print` and is recorded in the function table with at least one parameter
type, and whose argument type-checks, the argument's type IS checked for
assignability against the first recorded parameter type: the call
type-checks with the recorded return type exactly when that check passes,
and otherwise fails with a `TypeMismatchError` (whose actual-type
description uses the argument expression's node tag). -/
theorem claim_C2_amended_thm (env : GlobalTypeEnv) (locals : LocalTypeEnv) (name : String)
    (arg : Expr Unit) (k : Nat) (argTys : List Ty) (retTyp : Ty) (tArg : Expr Ty) (k1 : Nat)
    (expected : Ty)
    (hname : name ≠ "print")
    (hfun : SMap.get? env.functions name = some (argTys, retTyp))
    (hhead : argTys.head? = some expected)
    (harg : tcExpr env locals arg k = .ok (tArg, k1)) :
    (isAssignable env tArg.annot expected = true →
      tcExpr env locals (.builtin1 () name arg) k = .ok (.builtin1 retTyp name tArg, k1)) ∧
    (isAssignable env tArg.annot expected = false →
      tcExpr env locals (.builtin1 () name arg) k =
        .error (.typeMismatchError expected.desc
          (match tArg.annot with | .cls n _ => n | _ => tArg.tagStr))) := by
  have hname' : (name == "print") = false := by
    simp [hname]
  constructor <;> intro hasgn <;>
    simp [tcExpr, hname', hfun, harg, hhead, hasgn, exceptBind_ok]

/-- C2 witness: `abs(5)` type-checks with return type `Num`. -/
theorem claim_C2_witness :
    tcExpr defaultTypeEnv emptyLocalTypeEnv (.builtin1 () "abs" (.literal () (.num 5))) 0 =
      .ok (.builtin1 Ty.num "abs" (.literal Ty.num (.num 5)), 0) :=
  (claim_C2_amended_thm defaultTypeEnv emptyLocalTypeEnv "abs" (.literal () (.num 5)) 0
    [Ty.num] Ty.num (.literal Ty.num (.num 5)) 0 Ty.num (by decide) rfl rfl rfl).1 rfl

/-- C9: for a call whose callee names a known class, the argument
expressions are never type-checked — the result depends on the argument
list only through its length, so any two argument lists of equal length
(one may contain an unbound name) give identical results, and the
successful result is a `construct` node carrying no arguments; moreover
with no `__init__` method recorded, construction succeeds for every
argument count. -/
theorem claim_C9_thm (env : GlobalTypeEnv) (locals : LocalTypeEnv) (name : String)
    (args args' : List (Expr Unit)) (k : Nat) (ci : SMap Ty × SMap (List Ty × Ty))
    (hcls : SMap.get? env.classes name = some ci)
    (hlen : args.length = args'.length) :
    tcExpr env locals (.call () name args) k = tcExpr env locals (.call () name args') k ∧
    (SMap.get? ci.2 "__init__" = Option.none →
      tcExpr env locals (.call () name args) k =
        .ok (.construct (Ty.cls name k) name, k + 1)) := by
  obtain ⟨flds, mthds⟩ := ci
  constructor
  · cases hinit : SMap.get? mthds "__init__" with
    | none => simp [tcExpr, hcls, hinit]
    | some sig => simp [tcExpr, hcls, hinit, hlen]
  · intro hinit
    simp [tcExpr, hcls, hinit]

/-- C9 witness: with class `C` (no `__init__`) in scope, `C(zzz)` — whose
argument is an unbound name — type-checks to a `construct` node, with no
diagnostic for the argument. -/
theorem claim_C9_witness :
    tcExpr { globals := [], functions := [], classes := [("C", ([], []))] }
        emptyLocalTypeEnv (.call () "C" [.id () "zzz"]) 0 =
      .ok (.construct (Ty.cls "C" 0) "C", 1) :=
  (claim_C9_thm { globals := [], functions := [], classes := [("C", ([], []))] }
    emptyLocalTypeEnv "C" [.id () "zzz"] [.literal () (.num 1)] 0 ([], [])
    rfl rfl).2 rfl

/-- C10: when the condition of an `if` type-checks, an empty then-branch
(or, with a successfully checked non-empty then-branch, an empty
else-branch) makes the checker read `block[block.length - 1].a` out of
bounds: the result is the modelled engine-level crash `runtimeError`,
which is not one of the defined diagnostics. -/
theorem claim_C10_thm (env : GlobalTypeEnv) (locals : LocalTypeEnv) (cond : Expr Unit)
    (thn els : List (Stmt Unit)) (k : Nat) (tCond : Expr Ty) (k1 : Nat)
    (hcond : tcExpr env locals cond k = .ok (tCond, k1)) :
    (thn = [] → tcStmt env locals (.ifStmt () cond thn els) k = .error .runtimeError) ∧
    (∀ tThn k2, tcBlock env locals thn k1 = .ok (tThn, k2) → tThn ≠ [] → els = [] →
      tcStmt env locals (.ifStmt () cond thn els) k = .error .runtimeError) ∧
    Err.isDefinedDiagnostic .runtimeError = false := by
  refine ⟨?_, ?_, rfl⟩
  · intro h
    subst h
    simp [tcStmt, hcond, tcBlock, exceptBind_ok, exceptBind_err]
  · intro tThn k2 hthn hne hels
    subst hels
    have hsome : tThn.getLast?.isSome := by
      cases tThn with
      | nil => exact absurd rfl hne
      | cons a t => simp [List.getLast?_isSome]
    obtain ⟨s, hs⟩ := Option.isSome_iff_exists.mp hsome
    simp [tcStmt, hcond, hthn, hs, tcBlock, exceptBind_ok, exceptBind_err]

/-- C10 witness: `if True:` with an empty then-branch crashes with the
modelled runtime error rather than any defined diagnostic. -/
theorem claim_C10_witness :
    tcStmt emptyGlobalTypeEnv emptyLocalTypeEnv
        (.ifStmt () (.literal () (.bool true)) [] [.pass ()]) 0 = .error .runtimeError ∧
    Err.isDefinedDiagnostic .runtimeError = false :=
  ⟨(claim_C10_thm emptyGlobalTypeEnv emptyLocalTypeEnv (.literal () (.bool true))
      [] [.pass ()] 0 (.literal Ty.bool (.bool true)) 0 rfl).1 rfl, rfl⟩

/-- C5 counterexample: `while 1: y` where `y` is unbound. The condition
type-checks to `Num` (not `Bool`), yet the diagnostic that reaches the
caller is the body's `NameError("y")`, not `ConditionTypeError("number")`:
the body is traversed before the condition's type is tested
(src/type-check.ts:206-209). -/
theorem claim_C5_counterexample :
    tcExpr emptyGlobalTypeEnv emptyLocalTypeEnv (.literal () (.num 1)) 0 =
      .ok (.literal Ty.num (.num 1), 0) ∧
    tcStmt emptyGlobalTypeEnv emptyLocalTypeEnv
        (.whileStmt () (.literal () (.num 1)) [.expr () (.id () "y")]) 0 =
      .error (.nameError "y") ∧
    Err.nameError "y" ≠ Err.conditionTypeError "number" := by
  exact ⟨rfl, rfl, by decide⟩

/-- C5 amended: for an `if` or `while` whose condition type-checks to a
non-`Bool` type, the branches (and, for `if`, the branch last-statement
reads) or the body are traversed first; only when they all succeed is the
reported diagnostic `ConditionTypeError` naming the condition's type tag.
A failure inside the branches or body preempts it. -/
theorem claim_C5_amended_thm (env : GlobalTypeEnv) (locals : LocalTypeEnv) (cond : Expr Unit)
    (k : Nat) (tCond : Expr Ty) (k1 : Nat)
    (hcond : tcExpr env locals cond k = .ok (tCond, k1))
    (hnb : tCond.annot ≠ Ty.bool) :
    (∀ thn els tThn k2 tEls k3 s1 s2,
      tcBlock env locals thn k1 = .ok (tThn, k2) → tThn.getLast? = some s1 →
      tcBlock env locals els k2 = .ok (tEls, k3) → tEls.getLast? = some s2 →
      tcStmt env locals (.ifStmt () cond thn els) k =
        .error (.conditionTypeError tCond.annot.tagStr)) ∧
    (∀ body tBody k2, tcBlock env locals body k1 = .ok (tBody, k2) →
      tcStmt env locals (.whileStmt () cond body) k =
        .error (.conditionTypeError tCond.annot.tagStr)) := by
  have h1 : tyEqJs tCond.annot Ty.bool = false := by
    revert hnb
    cases tCond.annot <;> simp [tyEqJs]
  have h2 : equalType tCond.annot Ty.bool = false := by
    revert hnb
    cases tCond.annot <;> simp [equalType, tyEqJs]
  constructor
  · intro thn els tThn k2 tEls k3 s1 s2 hthn hs1 hels hs2
    simp [tcStmt, hcond, hthn, hs1, hels, hs2, h1, exceptBind_ok]
  · intro body tBody k2 hbody
    simp [tcStmt, hcond, hbody, h2, exceptBind_ok]

/-- C5 witness: `while 1: pass` (body succeeds) reports
`ConditionTypeError("number")`. -/
theorem claim_C5_witness :
    tcStmt emptyGlobalTypeEnv emptyLocalTypeEnv
        (.whileStmt () (.literal () (.num 1)) [.pass ()]) 0 =
      .error (.conditionTypeError "number") :=
  (claim_C5_amended_thm emptyGlobalTypeEnv emptyLocalTypeEnv (.literal () (.num 1)) 0
    (.literal Ty.num (.num 1)) 0 rfl (by decide)).2 [.pass ()] [.pass Ty.none] 0 rfl

/-- Environment for the C4 counterexample: two globals `x`, `y` annotated
with two *distinct* class-type objects that both denote class `C` — the
situation produced by any two distinct `C` annotations in source text. -/
def envTwoObjectsC : GlobalTypeEnv :=
  { globals := [("x", Ty.cls "C" 0), ("y", Ty.cls "C" 1)],
    functions := [], classes := [("C", ([], []))] }

/-- C4 counterexample: `if True: x else: y` where the two branches'
last-statement types are structurally equal (both class `C`, `equalType`
and `structEq` hold) and both branches type-check, the condition types to
`Bool` — yet the conditional fails: the source compares the branch types
with `!==` (object identity, src/type-check.ts:189), and the two
annotation objects are distinct. -/
theorem claim_C4_counterexample :
    tcExpr envTwoObjectsC emptyLocalTypeEnv (.literal () (.bool true)) 0 =
      .ok (.literal Ty.bool (.bool true), 0) ∧
    tcBlock envTwoObjectsC emptyLocalTypeEnv [.expr () (.id () "x")] 0 =
      .ok ([.expr (Ty.cls "C" 0) (.id (Ty.cls "C" 0) "x")], 0) ∧
    tcBlock envTwoObjectsC emptyLocalTypeEnv [.expr () (.id () "y")] 0 =
      .ok ([.expr (Ty.cls "C" 1) (.id (Ty.cls "C" 1) "y")], 0) ∧
    equalType (Ty.cls "C" 0) (Ty.cls "C" 1) = true ∧
    structEq (Ty.cls "C" 0) (Ty.cls "C" 1) = true ∧
    tcStmt envTwoObjectsC emptyLocalTypeEnv
        (.ifStmt () (.literal () (.bool true)) [.expr () (.id () "x")] [.expr () (.id () "y")]) 0 =
      .error (.synError "Types of then and else branches must match") := by
  exact ⟨rfl, rfl, rfl, rfl, rfl, rfl⟩

/-- C4 amended: with a `Bool`-typed condition and both (non-empty)
branches type-checking, the conditional succeeds with the shared type
exactly when the two branches' last-statement types are *identical as
JavaScript values* (`===`: equal primitive tags, or the very same
class-type object — same name and same identity); otherwise — including
structurally equal class types read from two distinct type objects — it
fails with the syntax-level diagnostic. -/
theorem claim_C4_amended_thm (env : GlobalTypeEnv) (locals : LocalTypeEnv) (cond : Expr Unit)
    (thn els : List (Stmt Unit)) (k : Nat) (tCond : Expr Ty) (k1 : Nat)
    (tThn : List (Stmt Ty)) (k2 : Nat) (s1 : Stmt Ty) (tEls : List (Stmt Ty)) (k3 : Nat)
    (s2 : Stmt Ty)
    (hcond : tcExpr env locals cond k = .ok (tCond, k1))
    (hbool : tCond.annot = Ty.bool)
    (hthn : tcBlock env locals thn k1 = .ok (tThn, k2))
    (hs1 : tThn.getLast? = some s1)
    (hels : tcBlock env locals els k2 = .ok (tEls, k3))
    (hs2 : tEls.getLast? = some s2) :
    (tyEqJs s1.annot s2.annot = true →
      tcStmt env locals (.ifStmt () cond thn els) k =
        .ok (.ifStmt s1.annot tCond tThn tEls, k3)) ∧
    (tyEqJs s1.annot s2.annot = false →
      tcStmt env locals (.ifStmt () cond thn els) k =
        .error (.synError "Types of then and else branches must match")) := by
  constructor <;> intro heq <;>
    simp [tcStmt, hcond, hthn, hs1, hels, hs2, hbool, heq, exceptBind_ok] <;> rfl

/-- C4 witness: `if True: 1 else: 2` — both branch types are the
primitive `Num` singleton — succeeds with result type `Num`. -/
theorem claim_C4_witness :
    tcStmt emptyGlobalTypeEnv emptyLocalTypeEnv
        (.ifStmt () (.literal () (.bool true))
          [.expr () (.literal () (.num 1))] [.expr () (.literal () (.num 2))]) 0 =
      .ok (.ifStmt Ty.num (.literal Ty.bool (.bool true))
        [.expr Ty.num (.literal Ty.num (.num 1))] [.expr Ty.num (.literal Ty.num (.num 2))], 0) :=
  (claim_C4_amended_thm emptyGlobalTypeEnv emptyLocalTypeEnv (.literal () (.bool true))
    [.expr () (.literal () (.num 1))] [.expr () (.literal () (.num 2))] 0
    (.literal Ty.bool (.bool true)) 0
    [.expr Ty.num (.literal Ty.num (.num 1))] 0 (.expr Ty.num (.literal Ty.num (.num 1)))
    [.expr Ty.num (.literal Ty.num (.num 2))] 0 (.expr Ty.num (.literal Ty.num (.num 2)))
    rfl rfl rfl rfl rfl rfl).1 rfl

/-- Environment for the C3 counterexample: function `f` declared with one
parameter of class type `C` (one annotation object), global `x` of class
type `C` (a distinct annotation object with the same name). -/
def envCallClassParam : GlobalTypeEnv :=
  { globals := [("x", Ty.cls "C" 1)],
    functions := [("f", ([Ty.cls "C" 0], Ty.num))], classes := [] }

/-- C3 counterexample: `f(x)` with matching argument count and a
structurally equal argument type (`structEq` holds: both are class `C`)
is rejected with a `TypeMismatchError` whose expected and actual
descriptions are even the same list `[C]`: the source compares argument
types to parameter types with `===` (object identity,
src/type-check.ts:408), not structural equality. -/
theorem claim_C3_counterexample :
    tcExpr envCallClassParam emptyLocalTypeEnv (.id () "x") 0 =
      .ok (.id (Ty.cls "C" 1) "x", 0) ∧
    structEq (Ty.cls "C" 1) (Ty.cls "C" 0) = true ∧
    tcExpr envCallClassParam emptyLocalTypeEnv (.call () "f" [.id () "x"]) 0 =
      .error (.typeMismatchError "[C]" "[C]") := by
  exact ⟨rfl, rfl, rfl⟩

/-- C3 amended: for a call to an ordinary function name (not a class,
with a recorded signature) whose arguments all type-check, the call
succeeds if and only if the argument count equals the parameter count and
each argument's type value is *identical as a JavaScript value* (`===`)
to the declared parameter type at that position — structural equality of
class types is not sufficient; on success the call's annotated type is
the declared return type. -/
theorem claim_C3_amended_thm (env : GlobalTypeEnv) (locals : LocalTypeEnv) (name : String)
    (args : List (Expr Unit)) (k : Nat) (argTypes : List Ty) (retType : Ty)
    (tArgs : List (Expr Ty)) (k1 : Nat)
    (hc : SMap.get? env.classes name = Option.none)
    (hf : SMap.get? env.functions name = some (argTypes, retType))
    (hargs : tcExprList env locals args k = .ok (tArgs, k1)) :
    ((argTypes.length = args.length ∧
        (tArgs.zip argTypes).all (fun p => tyEqJs p.1.annot p.2) = true) →
      tcExpr env locals (.call () name args) k = .ok (.call retType name tArgs, k1)) ∧
    (¬(argTypes.length = args.length ∧
        (tArgs.zip argTypes).all (fun p => tyEqJs p.1.annot p.2) = true) →
      ∃ e, tcExpr env locals (.call () name args) k = .error e) := by
  constructor
  · rintro ⟨hlen, hall⟩
    simp [tcExpr, hc, hf, hargs, hlen, hall, exceptBind_ok]
  · intro hne
    by_cases hlen : argTypes.length = args.length
    · have hall : (tArgs.zip argTypes).all (fun p => tyEqJs p.1.annot p.2) = false := by
        cases hb : (tArgs.zip argTypes).all (fun p => tyEqJs p.1.annot p.2) with
        | true => exact absurd ⟨hlen, hb⟩ hne
        | false => rfl
      exact ⟨.typeMismatchError (toObject argTypes) (toObject (tArgs.map Expr.annot)),
        by simp [tcExpr, hc, hf, hargs, hlen, hall, exceptBind_ok]⟩
    · have hlen' : (argTypes.length == args.length) = false := by
        simp [hlen]
      exact ⟨.typeError (name ++ " takes " ++ toString argTypes.length
          ++ " positional arguments but " ++ toString args.length ++ " were given"),
        by simp [tcExpr, hc, hf, hargs, hlen', hlen, exceptBind_ok]⟩

/-- C3 witness: `f(3)` against `f : (Num) -> Num` succeeds with annotated
type `Num` (the argument's type is the primitive `Num` singleton, which
is `===` to the declared parameter type). -/
theorem claim_C3_witness :
    tcExpr { globals := [], functions := [("f", ([Ty.num], Ty.num))], classes := [] }
        emptyLocalTypeEnv (.call () "f" [.literal () (.num 3)]) 0 =
      .ok (.call Ty.num "f" [.literal Ty.num (.num 3)], 0) :=
  (claim_C3_amended_thm { globals := [], functions := [("f", ([Ty.num], Ty.num))], classes := [] }
    emptyLocalTypeEnv "f" [.literal () (.num 3)] 0 [Ty.num] Ty.num
    [.literal Ty.num (.num 3)] 0 rfl rfl rfl).1 ⟨rfl, rfl⟩

/-- Reading the caller's environment is unaffected by appending three
fresh maps. -/
theorem readEnv_append (σ : Store) (r : EnvRef) (g : SMap Ty) (f : SMap (List Ty × Ty))
    (c : SMap (SMap Ty × SMap (List Ty × Ty)))
    (hg : r.globals < σ.gmaps.length)
    (hf : r.functions < σ.fmaps.length)
    (hc : r.classes < σ.cmaps.length) :
    Store.readEnv ⟨σ.gmaps ++ [g], σ.fmaps ++ [f], σ.cmaps ++ [c]⟩ r =
      Store.readEnv σ r := by
  unfold Store.readEnv
  rw [listGetD_append_lt _ _ _ _ hg, listGetD_append_lt _ _ _ _ hf,
    listGetD_append_lt _ _ _ _ hc]

/-- Reading the caller's environment is also unaffected when the freshly
appended globals map is afterwards overwritten in place. -/
theorem readEnv_append_set (σ : Store) (r : EnvRef) (g : SMap Ty) (f : SMap (List Ty × Ty))
    (c : SMap (SMap Ty × SMap (List Ty × Ty))) (g2 : SMap Ty)
    (hg : r.globals < σ.gmaps.length)
    (hf : r.functions < σ.fmaps.length)
    (hc : r.classes < σ.cmaps.length) :
    Store.readEnv ⟨List.set (σ.gmaps ++ [g]) σ.gmaps.length g2, σ.fmaps ++ [f], σ.cmaps ++ [c]⟩ r =
      Store.readEnv σ r := by
  unfold Store.readEnv
  rw [listGetD_set_ne _ _ _ _ _ (Nat.ne_of_lt hg), listGetD_append_lt _ _ _ _ hg,
    listGetD_append_lt _ _ _ _ hf, listGetD_append_lt _ _ _ _ hc]

/-- C8: running the checker never mutates the caller's environment. In
the store model (map objects addressed by identity), for any store in
which the caller's three map references are allocated, the contents of
the caller's environment read back after `tcS` — whether it succeeded or
failed — equal its contents before, and the environment reference
returned to the caller is built from three freshly allocated maps,
distinct from each of the caller's. -/
theorem claim_C8_thm (σ : Store) (r : EnvRef) (p : Program Unit) (k : Nat)
    (hg : r.globals < σ.gmaps.length)
    (hf : r.functions < σ.fmaps.length)
    (hc : r.classes < σ.cmaps.length) :
    Store.readEnv (tcS σ r p k).2.1 r = Store.readEnv σ r ∧
    (tcS σ r p k).2.2.globals ≠ r.globals ∧
    (tcS σ r p k).2.2.functions ≠ r.functions ∧
    (tcS σ r p k).2.2.classes ≠ r.classes := by
  have hgne : r.globals ≠ σ.gmaps.length := Nat.ne_of_lt hg
  have hfne : r.functions ≠ σ.fmaps.length := Nat.ne_of_lt hf
  have hcne : r.classes ≠ σ.cmaps.length := Nat.ne_of_lt hc
  unfold tcS augmentTEnvS
  cases htc : tc (Store.readEnv σ r) p k with
  | error e =>
      exact ⟨readEnv_append σ r _ _ _ hg hf hc,
        fun h => hgne h.symm, fun h => hfne h.symm, fun h => hcne h.symm⟩
  | ok v =>
      obtain ⟨prog, env2, k1⟩ := v
      exact ⟨readEnv_append_set σ r _ _ _ _ hg hf hc,
        fun h => hgne h.symm, fun h => hfne h.symm, fun h => hcne h.symm⟩

/-- C8 witness: a concrete one-entry store; the caller's environment
contents are unchanged by a checking run and the returned reference is
fresh. -/
theorem claim_C8_witness :
    Store.readEnv (tcS { gmaps := [[("a", Ty.num)]], fmaps := [[]], cmaps := [[]] }
        ⟨0, 0, 0⟩ { a := (), inits := [], funs := [], classes := [], stmts := [] } 0).2.1
        ⟨0, 0, 0⟩ =
      Store.readEnv { gmaps := [[("a", Ty.num)]], fmaps := [[]], cmaps := [[]] } ⟨0, 0, 0⟩ ∧
    (tcS { gmaps := [[("a", Ty.num)]], fmaps := [[]], cmaps := [[]] }
        ⟨0, 0, 0⟩ { a := (), inits := [], funs := [], classes := [], stmts := [] } 0).2.2.globals ≠ 0 ∧
    (tcS { gmaps := [[("a", Ty.num)]], fmaps := [[]], cmaps := [[]] }
        ⟨0, 0, 0⟩ { a := (), inits := [], funs := [], classes := [], stmts := [] } 0).2.2.functions ≠ 0 ∧
    (tcS { gmaps := [[("a", Ty.num)]], fmaps := [[]], cmaps := [[]] }
        ⟨0, 0, 0⟩ { a := (), inits := [], funs := [], classes := [], stmts := [] } 0).2.2.classes ≠ 0 :=
  claim_C8_thm { gmaps := [[("a", Ty.num)]], fmaps := [[]], cmaps := [[]] } ⟨0, 0, 0⟩
    { a := (), inits := [], funs := [], classes := [], stmts := [] } 0
    (by decide) (by decide) (by decide)
